import Mathlib

/-!
Verification of the quiz attempt and scoring engine of the Learning Cloud
backend (apps/quizzes/models.py, apps/quizzes/views.py,
apps/quizzes/serializers.py, apps/signals.py).

The Django ORM state is embedded as an explicit `DB` record of rows;
each HTTP-level operation becomes a pure function from a `DB` to an
`Except` of an error or an updated `DB` plus response data.  Rows are
updated by consing the new version in front of the list with the old
version filtered out; since every lookup key is unique in the schema
(primary keys, the `unique=True` session_key, and the unique_together
constraints on answers and results) this is observationally the same as
an in-place UPDATE.  Timestamps are naturals (`timezone.now()` becomes
the `now` field of the state), scores are rationals (Python floats never
round on the tiny integer fractions involved here), and `None`-able
columns are `Option`s.

The QuizSession table has no field, property or reverse relation named
`attempt`; the only link the serializer creates is the session_key
string f"{student.id}_{quiz.id}_{attempt.id}", modelled as the triple of
those three ids (`SessionKey`).  The views nevertheless read
`session.attempt` at three places (views.py lines 166, 253 and 408), and
in the source each of those accesses raises AttributeError before any
database write.  The embedding models each such access as the error
value sessionAttemptAttributeError, so the submit write phase, explicit
completion and abandonment all fail without effects, exactly as the
program does.  The write phase and the finalization block as written
(the code that would run if the attribute resolved) are transliterated
separately — and marked as dead code — only to state the per-type
evaluation and points expressions they contain.
-/

/-- Question.QUESTION_TYPES (models.py line 46). -/
inductive QuestionType where
  | MULTIPLE_CHOICE
  | TRUE_FALSE
  | MATCHING
  | FILL_IN_BLANK
  | SHORT_ANSWER
deriving DecidableEq, Repr

/-- The JSON correct_answer column (models.py line 58): a scalar string for
MULTIPLE_CHOICE / TRUE_FALSE / SHORT_ANSWER, a list of acceptable strings
for FILL_IN_BLANK. -/
inductive CorrectAnswer where
  | Scalar (s : String)
  | Alternatives (l : List String)
deriving DecidableEq, Repr

/-- Python str() applied to the correct_answer JSON value: identity on a
string, Python list repr on a list (the quote character is built with
Char.ofNat 39). -/
def strPy : CorrectAnswer → String
  | .Scalar s => s
  | .Alternatives l =>
      let quote := String.singleton (Char.ofNat 39)
      "[" ++ String.intercalate ", " (l.map (fun s => quote ++ s ++ quote)) ++ "]"

/-- Python str.lower(): ASCII case folding (all strings in this domain are
ASCII), written over the character list so that it computes by structural
recursion. -/
def lowerPy (s : String) : String := ⟨s.data.map Char.toLower⟩

/-- Whitespace removed from both ends of a character list. -/
def trimSeq (l : List Char) : List Char :=
  ((l.dropWhile Char.isWhitespace).reverse.dropWhile Char.isWhitespace).reverse

/-- Python str.strip(): remove surrounding whitespace. -/
def stripPy (s : String) : String := ⟨trimSeq s.data⟩

/-- needle is a prefix of hay, on character lists. -/
def startsWithSeq : List Char → List Char → Bool
  | [], _ => true
  | _ :: _, [] => false
  | a :: as, b :: bs => a == b && startsWithSeq as bs

/-- needle occurs as a contiguous subsequence of hay. -/
def hasSubSeq (needle : List Char) : List Char → Bool
  | [] => startsWithSeq needle []
  | b :: bs => startsWithSeq needle (b :: bs) || hasSubSeq needle bs

/-- Python `needle in hay` on strings: substring containment. -/
def substrPy (needle hay : String) : Bool := hasSubSeq needle.toList hay.toList

/-- Question row (models.py lines 44-82).  Display-only columns
(question_text, options, timestamps) carry no logic and are omitted. -/
structure Question where
  id : Nat
  quizId : Nat
  question_type : QuestionType
  correct_answer : CorrectAnswer
  explanation : Option String
  points : Int
  order_index : Nat
  is_active : Bool
  difficulty_level : Nat
deriving DecidableEq, Repr

/-- Quiz row (models.py lines 11-41); only the columns the quiz engine
reads. -/
structure Quiz where
  id : Nat
  max_attempts : Nat
  passing_score : Int
  is_active : Bool
deriving DecidableEq, Repr

/-- QuizAttempt row (models.py lines 85-98). -/
structure QuizAttempt where
  id : Nat
  studentId : Nat
  quizId : Nat
  started_at : Nat
  completed_at : Option Nat
  score : Option ℚ
  total_questions : Nat
  correct_answers : Nat
  time_spent : Nat
  is_passed : Bool
  is_abandoned : Bool
  ip_address : Option String
  user_agent : Option String
deriving DecidableEq, Repr

/-- Answer row (models.py lines 132-149); unique_together (attempt,
question). -/
structure Answer where
  attemptId : Nat
  questionId : Nat
  answer_text : String
  is_correct : Bool
  points_earned : ℚ
  time_spent : Nat
deriving DecidableEq, Repr

/-- The content of the session_key string f"{student.id}_{quiz.id}_{attempt.id}"
built in QuizAttemptCreateSerializer.create (serializers.py line 176). -/
structure SessionKey where
  studentId : Nat
  quizId : Nat
  attemptId : Nat
deriving DecidableEq, Repr

/-- One entry of the answers_data JSON dict kept on the session
(views.py lines 187-191). -/
structure AnswersDataEntry where
  answer : String
  is_correct : Bool
  time_spent : Nat
deriving DecidableEq, Repr

/-- QuizSession row (models.py lines 172-193). -/
structure QuizSession where
  studentId : Nat
  quizId : Nat
  session_key : SessionKey
  current_question_index : Nat
  answers_data : List (Nat × AnswersDataEntry)
  is_active : Bool
deriving DecidableEq, Repr

/-- QuizResult row (models.py lines 155-163).  difficulty_breakdown is the
JSON dict {difficulty: {correct, total}} as an association list in
insertion order. -/
structure QuizResult where
  attemptId : Nat
  total_time : Nat
  average_time_per_question : ℚ
  difficulty_breakdown : List (Nat × Nat × Nat)
  improvement_suggestions : List String
deriving DecidableEq, Repr

/-- The durable store plus the clock: the rows of the five quiz tables,
a fresh primary key for attempts, and the value timezone.now() returns
during the operation being modelled. -/
structure DB where
  quizzes : List Quiz
  questions : List Question
  attempts : List QuizAttempt
  answers : List Answer
  sessions : List QuizSession
  results : List QuizResult
  nextAttemptId : Nat
  now : Nat
deriving DecidableEq, Repr

/-- check_answer_correctness (views.py lines 388-403), verbatim per branch:
MULTIPLE_CHOICE and TRUE_FALSE lowercase both sides (no strip);
FILL_IN_BLANK lowercases and strips the submission and every list entry;
SHORT_ANSWER strips and lowercases the submission but only lowercases the
reference before the two substring tests; every other type (MATCHING)
falls through to False. -/
def check_answer_correctness (question : Question) (answer_text : String) : Bool :=
  match question.question_type with
  | .MULTIPLE_CHOICE => lowerPy answer_text == lowerPy (strPy question.correct_answer)
  | .TRUE_FALSE => lowerPy answer_text == lowerPy (strPy question.correct_answer)
  | .FILL_IN_BLANK =>
      let correct_answers := match question.correct_answer with
        | .Alternatives l => l
        | .Scalar s => [s]
      (correct_answers.map (fun ans => stripPy (lowerPy ans))).contains
        (stripPy (lowerPy answer_text))
  | .SHORT_ANSWER =>
      let correct_answer := lowerPy (strPy question.correct_answer)
      substrPy (stripPy (lowerPy answer_text)) correct_answer ||
        substrPy correct_answer (stripPy (lowerPy answer_text))
  | .MATCHING => false

/-! ## Lookups and row updates -/

/-- Question.objects.get(id=question_id, is_active=True)
(views.py line 145). -/
def findActiveQuestion (db : DB) (question_id : Nat) : Option Question :=
  db.questions.find? (fun q => q.id == question_id && q.is_active)

/-- Foreign-key navigation answer.question (id lookup, active or not). -/
def findQuestionById (db : DB) (question_id : Nat) : Option Question :=
  db.questions.find? (fun q => q.id == question_id)

/-- Foreign-key navigation attempt.quiz / session.quiz. -/
def findQuiz (db : DB) (quizId : Nat) : Option Quiz :=
  db.quizzes.find? (fun q => q.id == quizId)

/-- Row lookup for an attempt by primary key (session.attempt navigation). -/
def findAttemptAny (db : DB) (attemptId : Nat) : Option QuizAttempt :=
  db.attempts.find? (fun a => a.id == attemptId)

/-- QuizSession.objects.get(session_key=..., student=..., is_active=True)
(views.py lines 128-132): session_key is unique, so the first match is the
row. -/
def findSession (db : DB) (student : Nat) (key : SessionKey) : Option QuizSession :=
  db.sessions.find? (fun s =>
    s.session_key == key && s.studentId == student && s.is_active)

/-- Session row by its unique key, active or not. -/
def findSessionAny (db : DB) (key : SessionKey) : Option QuizSession :=
  db.sessions.find? (fun s => s.session_key == key)

/-- Answer row for the unique (attempt, question) pair. -/
def findAnswer (db : DB) (attemptId questionId : Nat) : Option Answer :=
  db.answers.find? (fun a => a.attemptId == attemptId && a.questionId == questionId)

/-- QuizResult row for its unique attempt. -/
def findResult (db : DB) (attemptId : Nat) : Option QuizResult :=
  db.results.find? (fun r => r.attemptId == attemptId)

/-- quiz.questions.filter(is_active=True) without ordering, as used for
counts. -/
def activeQuestionRows (db : DB) (quizId : Nat) : List Question :=
  db.questions.filter (fun q => q.quizId == quizId && q.is_active)

/-- Stable insertion into a list ordered by ascending order_index. -/
def insertByOrder (q : Question) : List Question → List Question
  | [] => [q]
  | x :: xs =>
      if q.order_index ≤ x.order_index then q :: x :: xs
      else x :: insertByOrder q xs

/-- Sort by ascending order_index (order_index is unique within a quiz, so
any sort gives the SQL ORDER BY result). -/
def sortByOrder : List Question → List Question
  | [] => []
  | x :: xs => insertByOrder x (sortByOrder xs)

/-- session.quiz.questions.filter(is_active=True).order_by(order_index)
(views.py line 152, serializers.py line 200). -/
def activeQuestions (db : DB) (quizId : Nat) : List Question :=
  sortByOrder (activeQuestionRows db quizId)

/-- sum of q.points over the quiz's active questions
(models.py line 117, signals.py line 314). -/
def totalActivePoints (db : DB) (quizId : Nat) : Int :=
  ((activeQuestionRows db quizId).map (fun q => q.points)).sum

/-- sum of answer.points_earned over the attempt's answers
(models.py line 118, signals.py line 315). -/
def earnedPoints (db : DB) (attemptId : Nat) : ℚ :=
  ((db.answers.filter (fun a => a.attemptId == attemptId)).map
    (fun a => a.points_earned)).sum

/-- UPDATE of a session row (keyed by the unique session_key). -/
def saveSessionRow (db : DB) (s : QuizSession) : DB :=
  { db with sessions :=
      s :: db.sessions.filter (fun t => !(t.session_key == s.session_key)) }

/-- UPDATE of an attempt row (keyed by primary key), without signals. -/
def writeAttemptRow (db : DB) (a : QuizAttempt) : DB :=
  { db with attempts := a :: db.attempts.filter (fun t => !(t.id == a.id)) }

/-- Create-or-overwrite of the Answer row for the unique (attempt, question)
pair: the net effect of the get_or_create plus the two saves at
views.py lines 165-183. -/
def upsertAnswer (db : DB) (a : Answer) : DB :=
  let keep := fun (b : Answer) =>
    !(b.attemptId == a.attemptId && b.questionId == a.questionId)
  { db with answers := a :: db.answers.filter keep }

/-- Insert-or-replace in the answers_data JSON dict keyed by the question id
(views.py lines 187-191). -/
def upsertAnswersData (l : List (Nat × AnswersDataEntry)) (qid : Nat)
    (e : AnswersDataEntry) : List (Nat × AnswersDataEntry) :=
  (qid, e) :: l.filter (fun p => !(p.1 == qid))

/-! ## The pre_save signal and attempt saves -/

/-- Python truthiness of the nullable float score column: `not instance.score`
holds when score is None or 0.0 (signals.py line 312). -/
def scoreFalsy : Option ℚ → Bool
  | none => true
  | some s => decide (s = 0)

/-- validate_quiz_attempt, the pre_save receiver for QuizAttempt
(signals.py lines 309-319): when completed_at is set and score is unset
(None or 0.0), recompute score and is_passed from the answers and the
quiz's active questions, provided the total points are positive.  The
attempt's quiz row always exists (foreign key); the none branch is
unreachable. -/
def validate_quiz_attempt (db : DB) (a : QuizAttempt) : QuizAttempt :=
  if a.completed_at.isSome && scoreFalsy a.score then
    let total_points := totalActivePoints db a.quizId
    let earned_points := earnedPoints db a.id
    if 0 < total_points then
      match findQuiz db a.quizId with
      | some quiz =>
          let s : ℚ := earned_points / (total_points : ℚ) * 100
          { a with score := some s,
                   is_passed := decide ((quiz.passing_score : ℚ) ≤ s) }
      | none => a
    else a
  else a

/-- attempt.save(update_fields=[score, is_passed]) (models.py line 123):
Django fires the pre_save signal on the instance, then writes only the
score and is_passed columns onto the stored row — a completed_at set
only in memory is not persisted.  The returned instance is the
signal-processed one.  The none branch (no stored row) cannot happen for
a fetched attempt. -/
def attemptSaveScoreFields (db : DB) (a : QuizAttempt) : DB × QuizAttempt :=
  let a2 := validate_quiz_attempt db a
  (match findAttemptAny db a2.id with
   | some row =>
       writeAttemptRow db { row with score := a2.score, is_passed := a2.is_passed }
   | none => db,
   a2)

/-! ## Scoring and finalization -/

/-- QuizAttempt.calculate_score (models.py lines 114-123): when the attempt
is completed and the quiz's active questions carry positive total points,
set score = earned/total × 100 and is_passed = score ≥ passing_score and
save those two fields; otherwise change nothing.  The quiz row always
exists (foreign key); the none branch is unreachable. -/
def calculate_score (db : DB) (a : QuizAttempt) : DB × QuizAttempt :=
  if a.completed_at.isSome then
    let total_points := totalActivePoints db a.quizId
    let earned_points := earnedPoints db a.id
    if 0 < total_points then
      match findQuiz db a.quizId with
      | some quiz =>
          let s : ℚ := earned_points / (total_points : ℚ) * 100
          attemptSaveScoreFields db
            { a with score := some s,
                     is_passed := decide ((quiz.passing_score : ℚ) ≤ s) }
      | none => (db, a)
    else (db, a)
  else (db, a)

/-- The body of complete_quiz_attempt below its first statement
(views.py lines 409-418) as written: stamp completed_at, calculate the
score, deactivate the session, return the attempt instance, with the
attempt taken to be the one the session_key names.  In the source this
code is DEAD: line 408 reads session.attempt, an attribute QuizSession
does not have, and raises AttributeError first (see
complete_quiz_attempt below).  The transliteration exists only so that
the write phase as written (submit_core) is a closed function. -/
def finalizationAsWritten (db : DB) (session : QuizSession) :
    DB × Option QuizAttempt :=
  match findAttemptAny db session.session_key.attemptId with
  | none => (db, none)
  | some attempt =>
      let attempt := { attempt with completed_at := some db.now }
      let (db, attempt) := calculate_score db attempt
      let db := saveSessionRow db { session with is_active := false }
      (db, some attempt)

/-! ## Answer submission -/

inductive SubmitError where
  /-- 404: no active session for (session_key, student). -/
  | SessionNotFound
  /-- Serializer field validation (serializers.py line 224): no active
  question has the submitted id — "Invalid question ID". -/
  | InvalidQuestionId
  /-- serializers.py line 232: "Answer is required for multiple choice
  questions". -/
  | AnswerRequiredMultipleChoice
  /-- serializers.py line 235: "Answer must be 'true' or 'false'". -/
  | AnswerMustBeTrueFalse
  /-- serializers.py line 238: "Answer text is required". -/
  | AnswerTextRequired
  /-- views.py line 147; dead after field validation already required the
  question to exist and be active. -/
  | QuestionNotFound
  | QuizAlreadyCompleted
  | NotCurrentQuestion
  /-- views.py line 166 reads session.attempt, an attribute QuizSession
  does not have: the request dies with an unhandled AttributeError. -/
  | sessionAttemptAttributeError
deriving DecidableEq, Repr

/-- SubmitAnswerSerializer validation (serializers.py lines 213-240): the
field validator validate_question_id requires an existing active
question, then the object-level validate() fetches the question (by id
alone) and checks answer_text against its type: non-empty for
MULTIPLE_CHOICE, one of true/false/True/False for TRUE_FALSE, non-empty
for FILL_IN_BLANK and SHORT_ANSWER, nothing for MATCHING.  Returns the
first validation error, none when the payload is valid.  The inner none
branch cannot happen: the row was found by the field validator. -/
def submitValidationError (db : DB) (question_id : Nat) (answer_text : String) :
    Option SubmitError :=
  match findActiveQuestion db question_id with
  | none => some .InvalidQuestionId
  | some _ =>
      match findQuestionById db question_id with
      | none => some .InvalidQuestionId
      | some question =>
          match question.question_type with
          | .MULTIPLE_CHOICE =>
              if answer_text = "" then some .AnswerRequiredMultipleChoice else none
          | .TRUE_FALSE =>
              if answer_text = "true" ∨ answer_text = "false"
                  ∨ answer_text = "True" ∨ answer_text = "False"
              then none else some .AnswerMustBeTrueFalse
          | .FILL_IN_BLANK =>
              if answer_text = "" then some .AnswerTextRequired else none
          | .SHORT_ANSWER =>
              if answer_text = "" then some .AnswerTextRequired else none
          | .MATCHING => none

/-- The JSON body returned by submit_answer on success
(views.py lines 198-204). -/
structure SubmitResponse where
  is_correct : Bool
  explanation : Option String
  next_question_index : Nat
  is_completed : Bool
deriving DecidableEq, Repr

/-- The Answer row written by a successful submission: text and time from
the request, correctness from the evaluator, points = question.points if
correct else 0 (views.py lines 164-183). -/
def submittedAnswer (session : QuizSession) (question : Question)
    (answer_text : String) (time_spent : Nat) : Answer :=
  { attemptId := session.session_key.attemptId
    questionId := question.id
    answer_text := answer_text
    is_correct := check_answer_correctness question answer_text
    points_earned :=
      if check_answer_correctness question answer_text
      then (question.points : ℚ) else 0
    time_spent := time_spent }

/-- The session after a successful submission: pointer advanced by one and
the answer recorded in answers_data (views.py lines 185-192). -/
def advancedSession (session : QuizSession) (question : Question)
    (answer_text : String) (time_spent : Nat) : QuizSession :=
  { session with
      current_question_index := session.current_question_index + 1
      answers_data := upsertAnswersData session.answers_data question.id
        ⟨answer_text, check_answer_correctness question answer_text, time_spent⟩ }

/-- The write phase of submit_answer (views.py lines 164-204) AS WRITTEN:
create-or-overwrite the Answer row with the evaluated correctness and
points (views.py lines 180-183), advance the session pointer, and when
the advanced pointer has reached the active question count, run the
finalization block.  In the source this block is DEAD CODE: its first
statement (line 166) evaluates session.attempt and raises
AttributeError, so none of these writes ever happen (see submit_answer
below).  The transliteration is kept to state the per-type evaluation
and points expressions it contains (claims C6 and C9). -/
def submit_core (db : DB) (session : QuizSession) (question : Question)
    (questionCount : Nat) (answer_text : String) (time_spent : Nat) :
    DB × SubmitResponse :=
  let db2 := saveSessionRow
    (upsertAnswer db (submittedAnswer session question answer_text time_spent))
    (advancedSession session question answer_text time_spent)
  let db3 :=
    if questionCount ≤ session.current_question_index + 1 then
      (finalizationAsWritten db2
        (advancedSession session question answer_text time_spent)).1
    else db2
  (db3,
    { is_correct := check_answer_correctness question answer_text
      explanation :=
        if check_answer_correctness question answer_text
        then question.explanation else none
      next_question_index := session.current_question_index + 1
      is_completed := decide (questionCount ≤ session.current_question_index + 1) })

/-- submit_answer (views.py lines 123-206): resolve the active session, run
the serializer validation, resolve the active question, require it to be
the one the session pointer designates in the quiz's active-question
ordering — and then, where the write phase would start, crash: line 166
reads session.attempt, an attribute QuizSession does not have, so every
submission that passes all the checks dies with AttributeError before
any write.  No call ever returns ok. -/
def submit_answer (db : DB) (student : Nat) (key : SessionKey)
    (question_id : Nat) (answer_text : String) (_time_spent : Nat) :
    Except SubmitError (DB × SubmitResponse) :=
  match findSession db student key with
  | none => .error .SessionNotFound
  | some session =>
    match submitValidationError db question_id answer_text with
    | some e => .error e
    | none =>
      match findActiveQuestion db question_id with
      | none => .error .QuestionNotFound
      | some _question =>
        if h : session.current_question_index
            < (activeQuestions db session.quizId).length then
          if ((activeQuestions db session.quizId).get
              ⟨session.current_question_index, h⟩).id = question_id then
            .error .sessionAttemptAttributeError
          else .error .NotCurrentQuestion
        else .error .QuizAlreadyCompleted

/-! ## Result generation and explicit completion -/

/-- The unhandled Python exceptions of the completion path. -/
inductive PyError where
  /-- TypeError from evaluating `attempt.score < 70` with score = None. -/
  | noneIntComparison
  /-- AttributeError from reading session.attempt, an attribute QuizSession
  does not have (views.py line 408). -/
  | sessionAttemptAttributeError
deriving DecidableEq, Repr

/-- The per-difficulty tally pass of generate_quiz_result
(views.py lines 431-438): bump the {correct, total} counters for one
answered question's difficulty level, inserting the key on first sight. -/
def bumpBreakdown (acc : List (Nat × Nat × Nat)) (difficulty : Nat)
    (is_correct : Bool) : List (Nat × Nat × Nat) :=
  if acc.any (fun p => p.1 == difficulty) then
    acc.map (fun p =>
      if p.1 == difficulty then
        (p.1, p.2.1 + (if is_correct then 1 else 0), p.2.2 + 1)
      else p)
  else acc ++ [(difficulty, (if is_correct then 1 else 0), 1)]

/-- difficulty_breakdown accumulated over attempt.answers.all(); a missing
question row (impossible under referential integrity) contributes
nothing. -/
def difficultyBreakdown (db : DB) (attemptId : Nat) : List (Nat × Nat × Nat) :=
  (db.answers.filter (fun a => a.attemptId == attemptId)).foldl
    (fun acc a =>
      match findQuestionById db a.questionId with
      | some q => bumpBreakdown acc q.difficulty_level a.is_correct
      | none => acc)
    []

/-- generate_quiz_result (views.py lines 421-458): total time from the
attempt's time_spent column, average per question (0 when
total_questions = 0), the difficulty tally, then the improvement
suggestions guarded by `attempt.score < 70` — which raises a TypeError
when score is None — and finally an idempotent get_or_create keyed by the
attempt. -/
def generate_quiz_result (db : DB) (attempt : QuizAttempt) :
    Except PyError (DB × QuizResult) :=
  let total_time := attempt.time_spent
  let total_questions := attempt.total_questions
  let average_time_per_question : ℚ :=
    if 0 < total_questions then (total_time : ℚ) / (total_questions : ℚ) else 0
  let breakdown := difficultyBreakdown db attempt.id
  match attempt.score with
  | none => .error .noneIntComparison
  | some s =>
    let improvement_suggestions :=
      if s < 70 then
        ["Review the lesson content before retaking the quiz",
         "Focus on areas where you scored lower"]
      else []
    match findResult db attempt.id with
    | some r => .ok (db, r)
    | none =>
        let r : QuizResult :=
          { attemptId := attempt.id
            total_time := total_time
            average_time_per_question := average_time_per_question
            difficulty_breakdown := breakdown
            improvement_suggestions := improvement_suggestions }
        .ok ({ db with results := r :: db.results }, r)

/-- complete_quiz_attempt (views.py lines 406-418): its first statement,
attempt = session.attempt (line 408), reads an attribute QuizSession
does not have, so every call raises AttributeError before stamping
completed_at, scoring, or deactivating the session.  The remainder of
the function is dead code (transliterated as finalizationAsWritten). -/
def complete_quiz_attempt (_db : DB) (_session : QuizSession) :
    Except PyError (DB × QuizAttempt) :=
  .error .sessionAttemptAttributeError

inductive CompleteError where
  | SessionNotFound
  /-- AttributeError from session.attempt inside complete_quiz_attempt. -/
  | sessionAttemptAttributeError
  /-- TypeError raised inside generate_quiz_result. -/
  | noneIntComparison
deriving DecidableEq, Repr

/-- An unhandled Python exception surfaces through the complete endpoint. -/
def CompleteError.ofPy : PyError → CompleteError
  | .noneIntComparison => .noneIntComparison
  | .sessionAttemptAttributeError => .sessionAttemptAttributeError

/-- complete_quiz (views.py lines 209-234): resolve the active session,
call complete_quiz_attempt — which always raises AttributeError at
session.attempt (views.py line 408) — and only then would generate the
detailed result; generate_quiz_result is therefore never reached. -/
def complete_quiz (db : DB) (student : Nat) (key : SessionKey) :
    Except CompleteError (DB × QuizAttempt × QuizResult) :=
  match findSession db student key with
  | none => .error .SessionNotFound
  | some session =>
    match complete_quiz_attempt db session with
    | .error e => .error (CompleteError.ofPy e)
    | .ok (db1, attempt) =>
      match generate_quiz_result db1 attempt with
      | .error e => .error (CompleteError.ofPy e)
      | .ok (db2, result) => .ok (db2, attempt, result)

/-! ## Abandonment -/

inductive AbandonError where
  | SessionNotFound
  /-- views.py line 253 reads session.attempt, an attribute QuizSession
  does not have. -/
  | sessionAttemptAttributeError
deriving DecidableEq, Repr

/-- abandon_quiz (views.py lines 237-266): after resolving the active
session, its first statement, attempt = session.attempt (line 253),
raises AttributeError — before is_abandoned or completed_at is set,
before any save, and before the session is deactivated.  The endpoint
never performs any of its documented effects. -/
def abandon_quiz (db : DB) (student : Nat) (key : SessionKey) :
    Except AbandonError DB :=
  match findSession db student key with
  | none => .error .SessionNotFound
  | some _session => .error .sessionAttemptAttributeError

/-! ## Starting an attempt -/

inductive StartError where
  | AttemptLimitExceeded
  | SessionAlreadyActive
deriving DecidableEq, Repr

/-- Count of existing attempts for the (student, quiz) pair
(serializers.py lines 143-146). -/
def countAttempts (db : DB) (student quizId : Nat) : Nat :=
  (db.attempts.filter (fun a => a.studentId == student && a.quizId == quizId)).length

/-- QuizSession.objects.filter(student, quiz, is_active=True).first()
(serializers.py lines 154-158). -/
def findActiveStudentSession (db : DB) (student quizId : Nat) : Option QuizSession :=
  db.sessions.find? (fun s =>
    s.studentId == student && s.quizId == quizId && s.is_active)

/-- QuizAttemptCreateSerializer.create (serializers.py lines 138-179):
reject when the attempt count has reached quiz.max_attempts, then reject
when an active session exists for the pair, then create the attempt
(total_questions = count of the quiz's active questions now; creation is
a save, so the pre_save signal runs — a no-op since completed_at is
None) and the session (current_question_index = 0, is_active = True,
session_key naming the student, quiz and fresh attempt). -/
def start_attempt (db : DB) (student : Nat) (quiz : Quiz) :
    Except StartError (DB × QuizAttempt) :=
  let attempt_count := countAttempts db student quiz.id
  if quiz.max_attempts ≤ attempt_count then .error .AttemptLimitExceeded
  else
    match findActiveStudentSession db student quiz.id with
    | some _ => .error .SessionAlreadyActive
    | none =>
      let attempt : QuizAttempt :=
        { id := db.nextAttemptId
          studentId := student
          quizId := quiz.id
          started_at := db.now
          completed_at := none
          score := none
          total_questions := (activeQuestionRows db quiz.id).length
          correct_answers := 0
          time_spent := 0
          is_passed := false
          is_abandoned := false
          ip_address := none
          user_agent := none }
      let attempt := validate_quiz_attempt db attempt
      let db := { db with attempts := attempt :: db.attempts,
                          nextAttemptId := db.nextAttemptId + 1 }
      let session : QuizSession :=
        { studentId := student
          quizId := quiz.id
          session_key := ⟨student, quiz.id, attempt.id⟩
          current_question_index := 0
          answers_data := []
          is_active := true }
      let db := { db with sessions := session :: db.sessions }
      .ok (db, attempt)

/-! ## Concrete states used to exercise the operations -/

/-- A quiz with two active questions worth 1 and 3 points and the default
passing score of 70. -/
def exQuiz1 : Quiz := { id := 1, max_attempts := 3, passing_score := 70, is_active := true }

def exQuestionMC : Question :=
  { id := 1, quizId := 1, question_type := .MULTIPLE_CHOICE
    correct_answer := .Scalar "B", explanation := some "Because"
    points := 1, order_index := 0, is_active := true, difficulty_level := 1 }

def exQuestionTF : Question :=
  { id := 2, quizId := 1, question_type := .TRUE_FALSE
    correct_answer := .Scalar "true", explanation := none
    points := 3, order_index := 1, is_active := true, difficulty_level := 2 }

def exAttempt1 : QuizAttempt :=
  { id := 10, studentId := 5, quizId := 1, started_at := 100
    completed_at := none, score := none, total_questions := 2
    correct_answers := 0, time_spent := 0, is_passed := false
    is_abandoned := false, ip_address := none, user_agent := none }

def exKey1 : SessionKey := { studentId := 5, quizId := 1, attemptId := 10 }

def exSession1 : QuizSession :=
  { studentId := 5, quizId := 1, session_key := exKey1
    current_question_index := 0, answers_data := [], is_active := true }

/-- Student 5 mid-attempt on exQuiz1, no answers yet. -/
def exSubmitDB : DB :=
  { quizzes := [exQuiz1], questions := [exQuestionMC, exQuestionTF]
    attempts := [exAttempt1], answers := [], sessions := [exSession1]
    results := [], nextAttemptId := 11, now := 500 }

/-- The same attempt completed with the first question answered correctly
(1 point) and the second incorrectly (0 of 3 points). -/
def exAttemptCompleted : QuizAttempt :=
  { exAttempt1 with completed_at := some 200 }

def exAnswerRight : Answer :=
  { attemptId := 10, questionId := 1, answer_text := "b"
    is_correct := true, points_earned := 1, time_spent := 3 }

def exAnswerWrong : Answer :=
  { attemptId := 10, questionId := 2, answer_text := "false"
    is_correct := false, points_earned := 0, time_spent := 4 }

def exCompletedDB : DB :=
  { quizzes := [exQuiz1], questions := [exQuestionMC, exQuestionTF]
    attempts := [exAttemptCompleted], answers := [exAnswerRight, exAnswerWrong]
    sessions := [], results := [], nextAttemptId := 11, now := 500 }

/-- A one-question quiz with its session at the last (only) question. -/
def exQuiz2 : Quiz := { id := 2, max_attempts := 3, passing_score := 70, is_active := true }

def exQuestionSingle : Question :=
  { id := 3, quizId := 2, question_type := .MULTIPLE_CHOICE
    correct_answer := .Scalar "A", explanation := none
    points := 1, order_index := 0, is_active := true, difficulty_level := 1 }

def exAttempt11 : QuizAttempt :=
  { exAttempt1 with id := 11, quizId := 2, total_questions := 1 }

def exKey2 : SessionKey := { studentId := 5, quizId := 2, attemptId := 11 }

def exSession2 : QuizSession :=
  { studentId := 5, quizId := 2, session_key := exKey2
    current_question_index := 0, answers_data := [], is_active := true }

def exLastDB : DB :=
  { quizzes := [exQuiz2], questions := [exQuestionSingle]
    attempts := [exAttempt11], answers := [], sessions := [exSession2]
    results := [], nextAttemptId := 12, now := 600 }

/-- A finished, scored attempt that already has its QuizResult row. -/
def exScoredAttempt : QuizAttempt :=
  { exAttempt1 with
      completed_at := some 200
      score := some 80
      is_passed := true
      time_spent := 9 }

def exResult1 : QuizResult :=
  { attemptId := 10, total_time := 9, average_time_per_question := 9 / 2
    difficulty_breakdown := [], improvement_suggestions := [] }

def exResultDB : DB :=
  { quizzes := [exQuiz1], questions := [exQuestionMC, exQuestionTF]
    attempts := [exScoredAttempt], answers := [exAnswerRight, exAnswerWrong]
    sessions := [], results := [exResult1], nextAttemptId := 11, now := 500 }

/-- A quiz with no active questions at all, mid-attempt. -/
def exQuiz3 : Quiz := { id := 3, max_attempts := 3, passing_score := 70, is_active := true }

def exAttempt12 : QuizAttempt :=
  { exAttempt1 with id := 12, quizId := 3, total_questions := 0 }

def exKey3 : SessionKey := { studentId := 5, quizId := 3, attemptId := 12 }

def exSession3 : QuizSession :=
  { studentId := 5, quizId := 3, session_key := exKey3
    current_question_index := 0, answers_data := [], is_active := true }

def exZeroDB : DB :=
  { quizzes := [exQuiz3], questions := [], attempts := [exAttempt12]
    answers := [], sessions := [exSession3], results := []
    nextAttemptId := 13, now := 700 }

/-- A quiz whose only question is of type MATCHING, mid-attempt. -/
def exQuiz4 : Quiz := { id := 4, max_attempts := 3, passing_score := 70, is_active := true }

def exQuestionMatch : Question :=
  { id := 4, quizId := 4, question_type := .MATCHING
    correct_answer := .Scalar "left-right", explanation := none
    points := 2, order_index := 0, is_active := true, difficulty_level := 3 }

def exAttempt13 : QuizAttempt :=
  { exAttempt1 with id := 13, quizId := 4, total_questions := 1 }

def exKey4 : SessionKey := { studentId := 5, quizId := 4, attemptId := 13 }

def exSession4 : QuizSession :=
  { studentId := 5, quizId := 4, session_key := exKey4
    current_question_index := 0, answers_data := [], is_active := true }

def exMatchDB : DB :=
  { quizzes := [exQuiz4], questions := [exQuestionMatch]
    attempts := [exAttempt13], answers := [], sessions := [exSession4]
    results := [], nextAttemptId := 14, now := 800 }

/-- Short-answer questions for the evaluator alone (they belong to no
stored quiz). -/
def exQuestionSA : Question :=
  { id := 5, quizId := 9, question_type := .SHORT_ANSWER
    correct_answer := .Scalar " abc ", explanation := none
    points := 1, order_index := 0, is_active := true, difficulty_level := 1 }

def exQuestionPhoto : Question :=
  { id := 6, quizId := 9, question_type := .SHORT_ANSWER
    correct_answer := .Scalar "Photosynthesis", explanation := none
    points := 1, order_index := 1, is_active := true, difficulty_level := 1 }

/-- A fresh store: quiz 1 exists with its two active questions, no attempts
or sessions yet. -/
def exStartDB : DB :=
  { quizzes := [exQuiz1], questions := [exQuestionMC, exQuestionTF]
    attempts := [], answers := [], sessions := [], results := []
    nextAttemptId := 1, now := 50 }

/-- Student 5 has already used all three allowed attempts on quiz 1. -/
def exFullDB : DB :=
  { quizzes := [exQuiz1], questions := [exQuestionMC, exQuestionTF]
    attempts := [exAttempt1, { exAttempt1 with id := 21 },
                 { exAttempt1 with id := 22 }]
    answers := [], sessions := [], results := [], nextAttemptId := 23, now := 60 }

/-! ## Frame and lookup lemmas -/

/-- The pre_save signal only ever touches score and is_passed. -/
theorem validate_frame (db : DB) (a : QuizAttempt) :
    ∃ sc ip, validate_quiz_attempt db a = { a with score := sc, is_passed := ip } := by
  simp only [validate_quiz_attempt]
  repeat' split
  all_goals exact ⟨_, _, rfl⟩

/-- calculate_score only ever touches score and is_passed of the instance. -/
theorem calculate_score_frame (db : DB) (a : QuizAttempt) :
    ∃ sc ip, (calculate_score db a).2 = { a with score := sc, is_passed := ip } := by
  simp only [calculate_score, attemptSaveScoreFields]
  repeat' split
  all_goals first
    | exact validate_frame db _
    | exact ⟨_, _, rfl⟩

/-- calculate_score either writes nothing or updates the stored row's score
and is_passed columns from the recomputed instance. -/
theorem calculate_score_state (db : DB) (a : QuizAttempt) :
    (calculate_score db a).1 = db
    ∨ ∃ row, findAttemptAny db ((calculate_score db a).2).id = some row
        ∧ (calculate_score db a).1
            = writeAttemptRow db
                { row with score := ((calculate_score db a).2).score,
                           is_passed := ((calculate_score db a).2).is_passed } := by
  simp only [calculate_score, attemptSaveScoreFields]
  repeat' split
  all_goals first
    | exact Or.inl rfl
    | (rename_i row heq; exact Or.inr ⟨row, heq, rfl⟩)

/-- A found session matches the key, the student and activity. -/
theorem findSession_props {db : DB} {student : Nat} {key : SessionKey}
    {s : QuizSession} (h : findSession db student key = some s) :
    s.session_key = key ∧ s.studentId = student ∧ s.is_active = true := by
  unfold findSession at h
  have hp := List.find?_some h
  simp only [Bool.and_eq_true, beq_iff_eq] at hp
  exact ⟨hp.1.1, hp.1.2, hp.2⟩

/-- A found attempt row carries the looked-up id. -/
theorem findAttemptAny_id {db : DB} {aid : Nat} {a : QuizAttempt}
    (h : findAttemptAny db aid = some a) : a.id = aid := by
  unfold findAttemptAny at h
  have hp := List.find?_some h
  simpa using hp

/-- A found active question carries the looked-up id and is active. -/
theorem findActiveQuestion_props {db : DB} {qid : Nat} {q : Question}
    (h : findActiveQuestion db qid = some q) : q.id = qid ∧ q.is_active = true := by
  unfold findActiveQuestion at h
  have hp := List.find?_some h
  simp only [Bool.and_eq_true, beq_iff_eq] at hp
  exact hp

/-- Reading a session row back right after writing it. -/
theorem findSessionAny_save (db : DB) (s : QuizSession) {key : SessionKey}
    (hk : s.session_key = key) :
    findSessionAny (saveSessionRow db s) key = some s := by
  subst hk
  simp [findSessionAny, saveSessionRow, List.find?]

/-- Reading an answer row back right after the create-or-overwrite. -/
theorem findAnswer_upsert (db : DB) (a : Answer) :
    findAnswer (upsertAnswer db a) a.attemptId a.questionId = some a := by
  simp [findAnswer, upsertAnswer, List.find?]

/-- Reading an attempt row back right after writing it. -/
theorem findAttemptAny_write (db : DB) (a : QuizAttempt) :
    findAttemptAny (writeAttemptRow db a) a.id = some a := by
  simp [findAttemptAny, writeAttemptRow, List.find?]

/-- Characterization of the as-written finalization block by cases on the
attempt lookup. -/
theorem finalizationAsWritten_db (db : DB) (s : QuizSession) :
    (findAttemptAny db s.session_key.attemptId = none
      ∧ finalizationAsWritten db s = (db, none))
    ∨ ∃ a, findAttemptAny db s.session_key.attemptId = some a
        ∧ (finalizationAsWritten db s).1
            = saveSessionRow
                (calculate_score db { a with completed_at := some db.now }).1
                { s with is_active := false }
        ∧ (finalizationAsWritten db s).2
            = some (calculate_score db { a with completed_at := some db.now }).2 := by
  unfold finalizationAsWritten
  split
  · rename_i h
    exact Or.inl ⟨h, rfl⟩
  · rename_i a h
    exact Or.inr ⟨a, h, rfl, rfl⟩

/-- The as-written finalization block never touches the answers or results
tables. -/
theorem finalizationAsWritten_tables (db : DB) (s : QuizSession) :
    (finalizationAsWritten db s).1.answers = db.answers
    ∧ (finalizationAsWritten db s).1.results = db.results := by
  rcases finalizationAsWritten_db db s with ⟨_, h⟩ | ⟨a, _, h, _⟩
  · rw [h]
    exact ⟨rfl, rfl⟩
  · rw [h]
    rcases calculate_score_state db { a with completed_at := some db.now }
      with h2 | ⟨row, _, h2⟩ <;>
      refine ⟨?_, ?_⟩ <;> simp [saveSessionRow, writeAttemptRow, h2]

/-- findAnswer only looks at the answers table. -/
theorem findAnswer_tables {db1 db2 : DB} (h : db1.answers = db2.answers)
    {i j : Nat} : findAnswer db1 i j = findAnswer db2 i j := by
  unfold findAnswer
  rw [h]

/-- The Answer row the write phase as written would store. -/
theorem submit_core_answer (db : DB) (session : QuizSession) (question : Question)
    (n : Nat) (text : String) (t : Nat) :
    findAnswer (submit_core db session question n text t).1
        session.session_key.attemptId question.id
      = some (submittedAnswer session question text t) := by
  simp only [submit_core]
  split
  · rw [findAnswer_tables (finalizationAsWritten_tables _ _).1]
    exact findAnswer_upsert db (submittedAnswer session question text t)
  · exact findAnswer_upsert db (submittedAnswer session question text t)

/-! ## Claim theorems -/

/-- The recomputation the pre_save signal performs on an instance whose
score and is_passed were just set from the same store is the identity. -/
theorem validate_fixed (db : DB) (a : QuizAttempt) (quiz : Quiz)
    (hq : findQuiz db a.quizId = some quiz)
    (ht : 0 < totalActivePoints db a.quizId) :
    validate_quiz_attempt db
      { a with
          score := some
            (earnedPoints db a.id / (totalActivePoints db a.quizId : ℚ) * 100)
          is_passed := decide ((quiz.passing_score : ℚ)
            ≤ earnedPoints db a.id / (totalActivePoints db a.quizId : ℚ) * 100) }
    = { a with
        score := some
          (earnedPoints db a.id / (totalActivePoints db a.quizId : ℚ) * 100)
        is_passed := decide ((quiz.passing_score : ℚ)
          ≤ earnedPoints db a.id / (totalActivePoints db a.quizId : ℚ) * 100) } := by
  simp only [validate_quiz_attempt]
  split
  · rw [hq]
  · rfl

/-- C1: for every attempt whose completed_at is set (on a quiz whose active
questions carry positive total points, without which the claimed quotient
does not exist — see C10), finalization computes
score = (sum of points_earned over the attempt's Answers) /
(sum of points over the quiz's active Questions) × 100 and sets
is_passed iff score ≥ quiz.passing_score. -/
theorem calculate_score_formula (db : DB) (a : QuizAttempt) (quiz : Quiz)
    (hq : findQuiz db a.quizId = some quiz)
    (hc : a.completed_at.isSome = true)
    (ht : 0 < totalActivePoints db a.quizId) :
    (calculate_score db a).2.score
      = some (earnedPoints db a.id / (totalActivePoints db a.quizId : ℚ) * 100)
    ∧ ((calculate_score db a).2.is_passed = true ↔
        (quiz.passing_score : ℚ)
          ≤ earnedPoints db a.id / (totalActivePoints db a.quizId : ℚ) * 100) := by
  simp only [calculate_score, attemptSaveScoreFields]
  rw [if_pos hc, if_pos ht]
  simp only [hq]
  rw [validate_fixed db a quiz hq ht]
  exact ⟨rfl, by simp⟩

/-- Witness for C1: the two-question quiz worth 1 and 3 points with the
first answered correctly and the second not scores 25 and is not passed
against passing_score 70. -/
theorem calculate_score_formula_witness :
    (findQuiz exCompletedDB 1 = some exQuiz1
      ∧ exAttemptCompleted.completed_at.isSome = true
      ∧ 0 < totalActivePoints exCompletedDB 1)
    ∧ (calculate_score exCompletedDB exAttemptCompleted).2.score = some 25
    ∧ (calculate_score exCompletedDB exAttemptCompleted).2.is_passed = false := by
  have h := calculate_score_formula exCompletedDB exAttemptCompleted exQuiz1
    (by decide) (by decide) (by decide)
  have hearn : earnedPoints exCompletedDB exAttemptCompleted.id = 1 := by
    norm_num [earnedPoints, exCompletedDB, exAttemptCompleted, exAttempt1,
      exAnswerRight, exAnswerWrong]
  have htot : totalActivePoints exCompletedDB exAttemptCompleted.quizId = 4 := by
    norm_num [totalActivePoints, activeQuestionRows, exCompletedDB,
      exAttemptCompleted, exAttempt1, exQuestionMC, exQuestionTF]
  refine ⟨⟨by decide, by decide, by decide⟩, ?_, ?_⟩
  · rw [h.1, hearn, htot]
    norm_num
  · cases hb : (calculate_score exCompletedDB exAttemptCompleted).2.is_passed with
    | false => rfl
    | true =>
        have h70 := h.2.mp hb
        rw [hearn, htot] at h70
        have : ((exQuiz1.passing_score : ℚ)) = 70 := by norm_num [exQuiz1]
        rw [this] at h70
        norm_num at h70

/-- The amended MULTIPLE_CHOICE / TRUE_FALSE rule: case-folded exact
equality with no trimming. -/
def mcTfAmendedRule (correct submitted : String) : Bool :=
  lowerPy submitted == lowerPy correct

/-- C6 counterexample: for the MULTIPLE_CHOICE question with
correct_answer "B", the submission "B " is equal to the reference after
trimming and case folding both sides — so the claim says correct — but the
evaluator, which never trims, rejects it. -/
theorem mc_trim_counterexample :
    exQuestionMC.question_type = QuestionType.MULTIPLE_CHOICE
    ∧ strPy exQuestionMC.correct_answer = "B"
    ∧ stripPy (lowerPy "B ") = stripPy (lowerPy "B")
    ∧ check_answer_correctness exQuestionMC "B " = false :=
  ⟨rfl, rfl, rfl, rfl⟩

/-- C6 amended: for MULTIPLE_CHOICE and TRUE_FALSE questions the evaluator
is case-folded exact equality of the submission against the single
correct_answer value with no trimming on either side, and the write phase
as transliterated (views.py lines 180-183) stores is_correct accordingly
with points_earned = question.points if correct else 0. -/
theorem mc_tf_evaluator (q : Question) (t : String)
    (h : q.question_type = QuestionType.MULTIPLE_CHOICE
        ∨ q.question_type = QuestionType.TRUE_FALSE) :
    check_answer_correctness q t = mcTfAmendedRule (strPy q.correct_answer) t
    ∧ ∀ db session n ts,
        (findAnswer (submit_core db session q n t ts).1
            session.session_key.attemptId q.id).map
          (fun a => (a.is_correct, a.points_earned))
        = some (check_answer_correctness q t,
            if check_answer_correctness q t then (q.points : ℚ) else 0) := by
  constructor
  · rcases h with h | h <;> simp [check_answer_correctness, h, mcTfAmendedRule]
  · intro db session n ts
    rw [submit_core_answer]
    rfl

/-- Witness for C6 amended: the case-insensitive match "b" against "B" is
accepted, and the transliterated write phase stores it with full
points. -/
theorem mc_tf_evaluator_witness :
    (exQuestionMC.question_type = QuestionType.MULTIPLE_CHOICE
      ∨ exQuestionMC.question_type = QuestionType.TRUE_FALSE)
    ∧ check_answer_correctness exQuestionMC "b"
        = mcTfAmendedRule (strPy exQuestionMC.correct_answer) "b"
    ∧ check_answer_correctness exQuestionMC "b" = true
    ∧ (findAnswer (submit_core exSubmitDB exSession1 exQuestionMC 2 "b" 3).1
          exSession1.session_key.attemptId exQuestionMC.id).map
        (fun a => (a.is_correct, a.points_earned))
      = some (check_answer_correctness exQuestionMC "b",
          if check_answer_correctness exQuestionMC "b"
          then (exQuestionMC.points : ℚ) else 0) := by
  have h := mc_tf_evaluator exQuestionMC "b" (Or.inl rfl)
  exact ⟨Or.inl rfl, h.1, rfl, h.2 exSubmitDB exSession1 2 3⟩

/-- The amended SHORT_ANSWER rule: the submission is trimmed and case
folded but the reference answer is only case folded (never trimmed)
before the two substring tests. -/
def shortAnswerAmendedRule (reference submitted : String) : Bool :=
  substrPy (stripPy (lowerPy submitted)) (lowerPy reference)
  || substrPy (lowerPy reference) (stripPy (lowerPy submitted))

/-- C7 counterexample: for the SHORT_ANSWER question whose reference answer
is " abc " (with surrounding spaces), the submission "zabcz" contains the
trimmed reference — so the claim, which trims both sides, says correct —
but the evaluator, which never trims the reference, rejects it. -/
theorem short_answer_trim_counterexample :
    exQuestionSA.question_type = QuestionType.SHORT_ANSWER
    ∧ strPy exQuestionSA.correct_answer = " abc "
    ∧ substrPy (stripPy (lowerPy " abc ")) (stripPy (lowerPy "zabcz")) = true
    ∧ check_answer_correctness exQuestionSA "zabcz" = false :=
  ⟨rfl, rfl, rfl, rfl⟩

/-- C7 amended: for SHORT_ANSWER questions the evaluator accepts iff the
trimmed, case-folded submission and the case-folded (untrimmed) reference
contain one another in either direction. -/
theorem short_answer_evaluator (q : Question) (t : String)
    (h : q.question_type = QuestionType.SHORT_ANSWER) :
    check_answer_correctness q t
      = shortAnswerAmendedRule (strPy q.correct_answer) t := by
  simp [check_answer_correctness, h, shortAnswerAmendedRule]

/-- Witness for C7: reference "Photosynthesis" with submission "synthesis"
is accepted (the loose substring policy). -/
theorem short_answer_evaluator_witness :
    exQuestionPhoto.question_type = QuestionType.SHORT_ANSWER
    ∧ check_answer_correctness exQuestionPhoto "synthesis"
        = shortAnswerAmendedRule "Photosynthesis" "synthesis"
    ∧ check_answer_correctness exQuestionPhoto "synthesis" = true := by
  have h := short_answer_evaluator exQuestionPhoto "synthesis" rfl
  exact ⟨rfl, h, rfl⟩

/-- C9: for every MATCHING question and every submission the evaluator
falls through to false, and the write phase as transliterated
(views.py lines 180-183) stores is_correct = false with
points_earned = 0. -/
theorem matching_always_false (q : Question) (t : String)
    (h : q.question_type = QuestionType.MATCHING) :
    check_answer_correctness q t = false
    ∧ ∀ db session n ts,
        (findAnswer (submit_core db session q n t ts).1
            session.session_key.attemptId q.id).map
          (fun a => (a.is_correct, a.points_earned))
        = some (false, 0) := by
  have hc : check_answer_correctness q t = false := by
    simp [check_answer_correctness, h]
  refine ⟨hc, fun db session n ts => ?_⟩
  rw [submit_core_answer]
  simp [submittedAnswer, hc]

/-- Witness for C9: the MATCHING question of exQuiz4, run through the
transliterated write phase, yields an incorrect zero-point answer. -/
theorem matching_always_false_witness :
    exQuestionMatch.question_type = QuestionType.MATCHING
    ∧ check_answer_correctness exQuestionMatch "anything" = false
    ∧ (findAnswer (submit_core exMatchDB exSession4 exQuestionMatch 1 "anything" 4).1
          exSession4.session_key.attemptId exQuestionMatch.id).map
        (fun a => (a.is_correct, a.points_earned))
      = some (false, 0) := by
  have h := matching_always_false exQuestionMatch "anything" rfl
  exact ⟨rfl, h.1, h.2 exMatchDB exSession4 1 4⟩

/-- C8: start_attempt checks the attempt count against quiz.max_attempts
first (AttemptLimitExceeded), session exclusivity second
(SessionAlreadyActive), and on success creates exactly one QuizAttempt —
total_questions frozen to the count of the quiz's active questions at
this instant — and exactly one QuizSession at index 0, active, whose key
names the student, the quiz and the fresh attempt. -/
theorem start_attempt_spec (db : DB) (student : Nat) (quiz : Quiz) :
    (quiz.max_attempts ≤ countAttempts db student quiz.id →
        start_attempt db student quiz = .error .AttemptLimitExceeded)
    ∧ (countAttempts db student quiz.id < quiz.max_attempts →
        ∀ s, findActiveStudentSession db student quiz.id = some s →
        start_attempt db student quiz = .error .SessionAlreadyActive)
    ∧ (countAttempts db student quiz.id < quiz.max_attempts →
        findActiveStudentSession db student quiz.id = none →
        ∃ db2 attempt, start_attempt db student quiz = .ok (db2, attempt)
          ∧ attempt.id = db.nextAttemptId
          ∧ attempt.total_questions = (activeQuestionRows db quiz.id).length
          ∧ attempt.completed_at = none
          ∧ attempt.score = none
          ∧ db2.attempts = attempt :: db.attempts
          ∧ db2.sessions
              = { studentId := student
                  quizId := quiz.id
                  session_key := ⟨student, quiz.id, attempt.id⟩
                  current_question_index := 0
                  answers_data := []
                  is_active := true } :: db.sessions) := by
  refine ⟨?_, ?_, ?_⟩
  · intro hmax
    unfold start_attempt
    rw [if_pos hmax]
  · intro hlt s hs
    unfold start_attempt
    rw [if_neg (Nat.not_le.mpr hlt)]
    simp only [hs]
  · intro hlt hnone
    unfold start_attempt
    rw [if_neg (Nat.not_le.mpr hlt)]
    simp only [hnone]
    have hval : validate_quiz_attempt db
        { id := db.nextAttemptId
          studentId := student
          quizId := quiz.id
          started_at := db.now
          completed_at := none
          score := none
          total_questions := (activeQuestionRows db quiz.id).length
          correct_answers := 0
          time_spent := 0
          is_passed := false
          is_abandoned := false
          ip_address := none
          user_agent := none } =
        { id := db.nextAttemptId
          studentId := student
          quizId := quiz.id
          started_at := db.now
          completed_at := none
          score := none
          total_questions := (activeQuestionRows db quiz.id).length
          correct_answers := 0
          time_spent := 0
          is_passed := false
          is_abandoned := false
          ip_address := none
          user_agent := none } := by
      simp [validate_quiz_attempt]
    rw [hval]
    exact ⟨_, _, rfl, rfl, rfl, rfl, rfl, rfl, rfl⟩

/-- Witness for C8: with all three attempts used, starting fails with
AttemptLimitExceeded; with one attempt and an active session, it fails
with SessionAlreadyActive; on a fresh store it creates attempt 1 with
total_questions = 2 and the bound session. -/
theorem start_attempt_spec_witness :
    (exQuiz1.max_attempts ≤ countAttempts exFullDB 5 1
      ∧ start_attempt exFullDB 5 exQuiz1 = .error .AttemptLimitExceeded)
    ∧ (countAttempts exSubmitDB 5 1 < exQuiz1.max_attempts
      ∧ start_attempt exSubmitDB 5 exQuiz1 = .error .SessionAlreadyActive)
    ∧ (countAttempts exStartDB 5 1 < exQuiz1.max_attempts
      ∧ findActiveStudentSession exStartDB 5 1 = none
      ∧ ∃ db2 attempt, start_attempt exStartDB 5 exQuiz1 = .ok (db2, attempt)
          ∧ attempt.id = 1
          ∧ attempt.total_questions = 2
          ∧ db2.attempts = attempt :: exStartDB.attempts) := by
  refine ⟨⟨by decide, (start_attempt_spec exFullDB 5 exQuiz1).1 (by decide)⟩,
    ⟨by decide, (start_attempt_spec exSubmitDB 5 exQuiz1).2.1 (by decide)
      exSession1 rfl⟩,
    by decide, rfl, ?_⟩
  obtain ⟨db2, attempt, h1, h2, h3, _, _, h6, _⟩ :=
    (start_attempt_spec exStartDB 5 exQuiz1).2.2 (by decide) rfl
  refine ⟨db2, attempt, h1, h2, ?_, h6⟩
  rw [h3]
  rfl


/-- No call to submit_answer ever returns ok: every branch of the handler
either fails a check or dies at session.attempt. -/
theorem submit_answer_never_ok (db : DB) (student : Nat) (key : SessionKey)
    (qid : Nat) (text : String) (t : Nat) (r : DB × SubmitResponse) :
    submit_answer db student key qid text t ≠ .ok r := by
  intro h
  unfold submit_answer at h
  repeat' split at h
  all_goals simp at h

/-- C2 counterexample: with an active session whose current question is
question 1, the nonexistent question id 999 is rejected by serializer
validation ("Invalid question ID"), not with the NotCurrentQuestion error
the claim assigns to every other question_id — and submitting the actual
current question with a valid payload does not succeed either: it dies
with AttributeError at session.attempt. -/
theorem submit_answer_counterexample :
    submit_answer exSubmitDB 5 exKey1 999 "b" 3 = .error .InvalidQuestionId
    ∧ SubmitError.InvalidQuestionId ≠ SubmitError.NotCurrentQuestion
    ∧ submit_answer exSubmitDB 5 exKey1 1 "b" 3
        = .error .sessionAttemptAttributeError
    ∧ (submit_answer exSubmitDB 5 exKey1 1 "b" 3).toOption = none :=
  ⟨rfl, by decide, rfl, rfl⟩

/-- C2 amended: submit_answer never succeeds and never advances
current_question_index.  Once the active session is found, a payload the
serializer rejects (nonexistent or inactive question_id, or answer_text
invalid for the question's type) fails with that validation error before
any question check; an existing active question_id other than the one at
current_question_index in the quiz's active-question ordering is rejected
with NotCurrentQuestion; and a submission for the current question with a
valid payload crashes with AttributeError at session.attempt
(views.py line 166) before any write. -/
theorem submit_answer_branches (db : DB) (student : Nat) (key : SessionKey)
    (qid : Nat) (text : String) (t : Nat) (session : QuizSession)
    (hs : findSession db student key = some session) :
    (∀ e, submitValidationError db qid text = some e →
        submit_answer db student key qid text t = .error e)
    ∧ (submitValidationError db qid text = none →
        ∀ q, findActiveQuestion db qid = some q →
        ∀ hlt : session.current_question_index
            < (activeQuestions db session.quizId).length,
          ((activeQuestions db session.quizId).get
              ⟨session.current_question_index, hlt⟩).id ≠ qid →
          submit_answer db student key qid text t = .error .NotCurrentQuestion)
    ∧ (submitValidationError db qid text = none →
        ∀ q, findActiveQuestion db qid = some q →
        ∀ hlt : session.current_question_index
            < (activeQuestions db session.quizId).length,
          ((activeQuestions db session.quizId).get
              ⟨session.current_question_index, hlt⟩).id = qid →
          submit_answer db student key qid text t
            = .error .sessionAttemptAttributeError)
    ∧ (∀ r, submit_answer db student key qid text t ≠ .ok r) := by
  refine ⟨?_, ?_, ?_, fun r => submit_answer_never_ok db student key qid text t r⟩
  · intro e he
    unfold submit_answer
    simp only [hs, he]
  · intro hval q hq hlt hne
    unfold submit_answer
    simp only [hs, hval, hq]
    rw [dif_pos hlt, if_neg hne]
  · intro hval q hq hlt heq
    unfold submit_answer
    simp only [hs, hval, hq]
    rw [dif_pos hlt, if_pos heq]

/-- Witness for C2 amended: at the session sitting on question 1,
question 999 fails validation, question 2 with a payload valid for its
TRUE_FALSE type gets NotCurrentQuestion, and the current question 1 with
a valid payload dies with the AttributeError. -/
theorem submit_answer_branches_witness :
    findSession exSubmitDB 5 exKey1 = some exSession1
    ∧ submitValidationError exSubmitDB 999 "b" = some .InvalidQuestionId
    ∧ submit_answer exSubmitDB 5 exKey1 999 "b" 3 = .error .InvalidQuestionId
    ∧ submit_answer exSubmitDB 5 exKey1 2 "true" 0 = .error .NotCurrentQuestion
    ∧ submit_answer exSubmitDB 5 exKey1 1 "b" 3
        = .error .sessionAttemptAttributeError := by
  have h1 := submit_answer_branches exSubmitDB 5 exKey1 999 "b" 3 exSession1 rfl
  have h2 := submit_answer_branches exSubmitDB 5 exKey1 2 "true" 0 exSession1 rfl
  have h3 := submit_answer_branches exSubmitDB 5 exKey1 1 "b" 3 exSession1 rfl
  exact ⟨rfl, rfl, h1.1 _ rfl,
    h2.2.1 rfl exQuestionTF rfl (by decide) (by decide),
    h3.2.2.1 rfl exQuestionMC rfl (by decide) (by decide)⟩

/-- C3 counterexample: on the one-question quiz, the submit_answer call
that supplies the last answer does not finalize anything and generates no
result — it dies with AttributeError at session.attempt, and no QuizResult
exists for the attempt. -/
theorem submit_last_answer_crash_counterexample :
    submit_answer exLastDB 5 exKey2 3 "a" 2 = .error .sessionAttemptAttributeError
    ∧ findResult exLastDB 11 = none :=
  ⟨rfl, rfl⟩

/-- C3 amended: generate_result is never invoked by any endpoint — the
submit_answer call that would supply the last answer crashes with
AttributeError at session.attempt before finalization, and complete_quiz
crashes the same way (views.py line 408) before reaching
generate_quiz_result — while the generate_quiz_result function itself is
idempotent: called on a scored attempt that already has a QuizResult it
returns the existing record without duplicating. -/
theorem quiz_result_generation :
    (∀ (db : DB) (student : Nat) (key : SessionKey) (qid : Nat)
        (text : String) (t : Nat) (r : DB × SubmitResponse),
        submit_answer db student key qid text t ≠ .ok r)
    ∧ (∀ (db : DB) (student : Nat) (key : SessionKey) session,
        findSession db student key = some session →
        complete_quiz db student key = .error .sessionAttemptAttributeError)
    ∧ (∀ (db : DB) (a : QuizAttempt) (s : ℚ) (r : QuizResult),
        a.score = some s → findResult db a.id = some r →
        generate_quiz_result db a = .ok (db, r)) := by
  refine ⟨submit_answer_never_ok, ?_, ?_⟩
  · intro db student key session hsess
    unfold complete_quiz
    simp only [hsess]
    rfl
  · intro db a s r hscore hr
    unfold generate_quiz_result
    simp only [hscore, hr]

/-- Witness for C3 amended: completing the one-question quiz's session
crashes with the AttributeError, and generate_quiz_result applied to the
scored attempt that already owns exResult1 returns exResult1 unchanged. -/
theorem quiz_result_generation_witness :
    findSession exLastDB 5 exKey2 = some exSession2
    ∧ complete_quiz exLastDB 5 exKey2 = .error .sessionAttemptAttributeError
    ∧ exScoredAttempt.score = some 80
    ∧ findResult exResultDB exScoredAttempt.id = some exResult1
    ∧ generate_quiz_result exResultDB exScoredAttempt = .ok (exResultDB, exResult1) :=
  ⟨rfl, quiz_result_generation.2.1 exLastDB 5 exKey2 exSession2 rfl, rfl, rfl,
    quiz_result_generation.2.2 exResultDB exScoredAttempt 80 exResult1 rfl rfl⟩

/-- C4 counterexample: attempt 10 has time_spent 0 and no Answer row, and
submitting the current question with time_spent = 7 does not add 7
anywhere — the call dies with AttributeError at session.attempt before
the Answer write, returning no new state. -/
theorem submit_time_crash_counterexample :
    (findAttemptAny exSubmitDB 10).map (fun a => a.time_spent) = some 0
    ∧ findAnswer exSubmitDB 10 1 = none
    ∧ submit_answer exSubmitDB 5 exKey1 1 "b" 7
        = .error .sessionAttemptAttributeError
    ∧ (submit_answer exSubmitDB 5 exKey1 1 "b" 7).toOption = none :=
  ⟨rfl, rfl, rfl, rfl⟩

/-- C4 amended: the submitted time_spent is never accumulated anywhere by
submit_answer: no call ever returns a new state, because every submission
either fails one of the checks or crashes with AttributeError at
session.attempt before the Answer row is created or the attempt row
touched. -/
theorem submit_time_never_persisted :
    ∀ (db : DB) (student : Nat) (key : SessionKey) (qid : Nat)
      (text : String) (t : Nat),
      (submit_answer db student key qid text t).toOption = none := by
  intro db student key qid text t
  cases h : submit_answer db student key qid text t with
  | error e => rfl
  | ok r => exact absurd h (submit_answer_never_ok db student key qid text t r)

/-- C5 counterexample: abandoning the active session returns no success and
performs no effects — the handler dies with AttributeError at
session.attempt, so the claimed is_abandoned/completed_at/is_active
updates never happen. -/
theorem abandon_crash_counterexample :
    findSession exSubmitDB 5 exKey1 = some exSession1
    ∧ abandon_quiz exSubmitDB 5 exKey1 = .error .sessionAttemptAttributeError
    ∧ (abandon_quiz exSubmitDB 5 exKey1).toOption = none :=
  ⟨rfl, rfl, rfl⟩

/-- C5 amended: abandon performs none of its documented effects: after
resolving the active session it crashes with AttributeError at
session.attempt (views.py line 253) before setting is_abandoned or
completed_at, before any save, and before deactivating the session — so
indeed no score is computed, and every attempt and session field is
unchanged, but only because the endpoint does nothing at all; without an
active session it fails with SessionNotFound. -/
theorem abandon_quiz_crashes (db : DB) (student : Nat) (key : SessionKey) :
    (findSession db student key = none →
        abandon_quiz db student key = .error .SessionNotFound)
    ∧ (∀ session, findSession db student key = some session →
        abandon_quiz db student key = .error .sessionAttemptAttributeError)
    ∧ (∀ r, abandon_quiz db student key ≠ .ok r) := by
  refine ⟨?_, ?_, ?_⟩
  · intro hnone
    unfold abandon_quiz
    simp only [hnone]
  · intro session hsess
    unfold abandon_quiz
    simp only [hsess]
  · intro r h
    unfold abandon_quiz at h
    repeat' split at h
    all_goals simp at h

/-- Witness for C5 amended: abandoning the active session of exSubmitDB
yields the AttributeError; abandoning on the fresh store with no session
yields SessionNotFound. -/
theorem abandon_quiz_crashes_witness :
    findSession exSubmitDB 5 exKey1 = some exSession1
    ∧ abandon_quiz exSubmitDB 5 exKey1 = .error .sessionAttemptAttributeError
    ∧ findSession exStartDB 5 exKey1 = none
    ∧ abandon_quiz exStartDB 5 exKey1 = .error .SessionNotFound :=
  ⟨rfl, (abandon_quiz_crashes exSubmitDB 5 exKey1).2.1 exSession1 rfl, rfl,
    (abandon_quiz_crashes exStartDB 5 exKey1).1 rfl⟩

/-- C10 counterexample: on the quiz with no active questions, the complete
operation does not reach the None-versus-70 comparison — it dies earlier,
with AttributeError at session.attempt, so the TypeError branch is not
reachable via complete. -/
theorem complete_zero_total_crash_counterexample :
    findSession exZeroDB 5 exKey3 = some exSession3
    ∧ totalActivePoints exZeroDB 3 = 0
    ∧ complete_quiz exZeroDB 5 exKey3 = .error .sessionAttemptAttributeError
    ∧ CompleteError.sessionAttemptAttributeError ≠ CompleteError.noneIntComparison :=
  ⟨rfl, by decide, rfl, by decide⟩

/-- C10 amended: for every completed attempt on a quiz whose active
questions total 0 points, calculate_score changes nothing — score stays
None — and generate_quiz_result applied to an attempt whose score is None
hits the None-versus-70 TypeError; but that comparison is not reachable
via the complete operation, which crashes with AttributeError at
session.attempt before finalization or result generation. -/
theorem zero_total_score_none (db : DB) (a : QuizAttempt) (student : Nat)
    (key : SessionKey)
    (hc : a.completed_at.isSome = true)
    (ht : totalActivePoints db a.quizId = 0)
    (hscore : a.score = none) :
    calculate_score db a = (db, a)
    ∧ generate_quiz_result db a = .error .noneIntComparison
    ∧ (∀ session, findSession db student key = some session →
        complete_quiz db student key = .error .sessionAttemptAttributeError) := by
  refine ⟨?_, ?_, ?_⟩
  · simp [calculate_score, hc, ht]
  · unfold generate_quiz_result
    simp only [hscore]
  · intro session hsess
    unfold complete_quiz
    simp only [hsess]
    rfl

/-- Witness for C10: attempt 12 on exQuiz3 (no active questions), taken as
completed now: scoring leaves it untouched, direct result generation
raises the None comparison error, and the complete endpoint raises the
AttributeError instead. -/
theorem zero_total_score_none_witness :
    (({ exAttempt12 with completed_at := some 700 } : QuizAttempt).completed_at.isSome = true
      ∧ totalActivePoints exZeroDB 3 = 0
      ∧ ({ exAttempt12 with completed_at := some 700 } : QuizAttempt).score = none)
    ∧ calculate_score exZeroDB { exAttempt12 with completed_at := some 700 }
        = (exZeroDB, { exAttempt12 with completed_at := some 700 })
    ∧ generate_quiz_result exZeroDB { exAttempt12 with completed_at := some 700 }
        = .error .noneIntComparison
    ∧ complete_quiz exZeroDB 5 exKey3 = .error .sessionAttemptAttributeError := by
  have h := zero_total_score_none exZeroDB
    { exAttempt12 with completed_at := some 700 } 5 exKey3 rfl (by decide) rfl
  exact ⟨⟨rfl, by decide, rfl⟩, h.1, h.2.1, h.2.2 exSession3 rfl⟩
